import Mathlib

/-!
Shallow embedding of the lesson-progression logic of `src/bot.py`.

The bot drives a user through an ordered catalog of lessons, records every
reply into a response sheet, and supports pause/resume.  We model:

  * the users sheet as a `List UserData` (one typed row per user; the Python
    code serialises each field to a string cell and parses it back, a
    round-trip that is the identity on the values the bot itself writes);
  * the responses sheet as an append-only `List ResponseRecord`;
  * the Telegram transport as ghost logs on the state: `sent` records every
    outbound text, `delivered` records each successful lesson delivery
    (user id and lesson index) performed by `send_lesson`;
  * the job queue as the ghost list `scheduled` of armed one-shot jobs;
  * transport send failure (`try/except` around the send in `send_lesson`)
    and job-queue arming failure (`try/except` in `handle_response`) as
    explicit boolean parameters `sendOk` / `armOk`;
  * wall-clock timestamps (`datetime.now().isoformat()`) as a `String`
    parameter `now`.

The lesson catalog `LESSONS` is a parameter of every operation that reads it,
so the empty-catalog behaviour is expressible.
-/

namespace Bot

/-- One entry of the lesson catalog (`lessons.LESSONS`): the Python dicts carry
`title`, `text` and an optional `is_final` flag (absent means `False`). -/
structure Lesson where
  title : String
  text : String
  is_final : Bool
  deriving Repr, DecidableEq

/-- A row of the users sheet, as produced by `get_user_from_sheet` after type
conversion: `user_id, username, current_lesson, paused, last_lesson_sent,
completed, created_at`. -/
structure UserData where
  user_id : String
  username : String
  current_lesson : Nat
  paused : Bool
  last_lesson_sent : Option String
  completed : Bool
  created_at : String
  deriving Repr, DecidableEq

/-- A row of the responses sheet, as appended by `save_response_to_sheet`:
`timestamp, user_id, username, lesson_index, lesson_title, response_text,
response_type`. -/
structure ResponseRecord where
  timestamp : String
  user_id : String
  username : String
  lesson_index : Nat
  lesson_title : String
  response_text : String
  response_type : String
  deriving Repr, DecidableEq

/-- The observable state: the two sheets plus ghost logs of transport sends,
successful lesson deliveries, and armed scheduler jobs. -/
structure BotState where
  users : List UserData
  responses : List ResponseRecord
  sent : List (String × String)
  delivered : List (String × Nat)
  scheduled : List (String × Nat)
  deriving Repr, DecidableEq

/-- Shape of an inbound (non-command) Telegram message as inspected by
`handle_response`: optional text, photo/voice flags, optional document
file name. -/
structure Msg where
  text : Option String
  photo : Bool
  voice : Bool
  document : Option String
  deriving Repr, DecidableEq

/-- `get_user_from_sheet`: linear scan of the rows for the first one whose
first column equals `user_id`. -/
def get_user_from_sheet (users : List UserData) (user_id : String) :
    Option UserData :=
  users.find? (fun r => r.user_id == user_id)

/-- `save_user_to_sheet`: update the first existing row with the same
`user_id` in place, otherwise append a new row. -/
def save_user_to_sheet : List UserData → UserData → List UserData
  | [], u => [u]
  | r :: rs, u =>
    if r.user_id == u.user_id then u :: rs
    else r :: save_user_to_sheet rs u

/-- `save_response_to_sheet`: append one row to the responses sheet. -/
def save_response_to_sheet (responses : List ResponseRecord)
    (r : ResponseRecord) : List ResponseRecord :=
  responses ++ [r]

/-- Default used to read a catalog entry whose index has already been checked
to be in range (Python indexing would raise otherwise). -/
def noLesson : Lesson := ⟨"", "", false⟩

/-- `send_lesson(update_or_context, context, user_id, lesson_index)`:
no-op on an empty catalog, an out-of-range index, a missing record, or a
paused record; otherwise persist `current_lesson = lesson_index`, attempt the
transport send (on failure: log and return), and if the lesson `is_final`
persist `completed = True`. -/
def send_lesson (LESSONS : List Lesson) (st : BotState) (user_id : String)
    (lesson_index : Nat) (sendOk : Bool) : BotState :=
  if LESSONS.isEmpty then st
  else if LESSONS.length ≤ lesson_index then st
  else
    let lesson := LESSONS.getD lesson_index noLesson
    match get_user_from_sheet st.users user_id with
    | none => st
    | some user_data =>
      if user_data.paused then st
      else
        let user_data1 := { user_data with current_lesson := lesson_index }
        let st1 := { st with users := save_user_to_sheet st.users user_data1 }
        if sendOk then
          let st2 := { st1 with
            sent := st1.sent ++
              [(user_id, lesson.title ++ "\n\n" ++ lesson.text)],
            delivered := st1.delivered ++ [(user_id, lesson_index)] }
          if lesson.is_final then
            let user_data2 := { user_data1 with completed := true }
            { st2 with users := save_user_to_sheet st2.users user_data2 }
          else st2
        else st1

/-- `send_lesson_job`: the job-queue callback; unwraps `(user_id,
lesson_index)` from the job data and calls `send_lesson`. -/
def send_lesson_job (LESSONS : List Lesson) (st : BotState) (user_id : String)
    (lesson_index : Nat) (sendOk : Bool) : BotState :=
  send_lesson LESSONS st user_id lesson_index sendOk

/-- `/start`: build a fresh record (index 0, not paused, not completed,
`last_lesson_sent = None`, `created_at = now`, current username defaulting to
"unknown") and save it, then send the welcome prompt. -/
def start (st : BotState) (user_id : String) (username : Option String)
    (now : String) : BotState :=
  let uname := username.getD "unknown"
  let user_data : UserData :=
    ⟨user_id, uname, 0, false, none, false, now⟩
  let st1 := { st with users := save_user_to_sheet st.users user_data }
  { st1 with sent := st1.sent ++ [(user_id,
      "👋 Привет! Я — помощник по дизайну интерьера от Лебедевой Ирины.\n\n" ++
      "📅 Да да той самой. Именно она сделала дизайн ИвМолокозаводу и твоему будущему дома!\n\n" ++
      "🎁 По окончании курса — получишь чек-лист “7 шагов к идеальному интерьеру” + скидку 20% на консультацию!\n\n" ++
      "Готов? Нажми → “Начать курс”")] }

/-- The button text "Начать курс" (`handle_start_course`): require an existing
record; if paused, only surface the paused notice; otherwise persist
`paused = False`, `last_lesson_sent = now`, and deliver lesson 0. -/
def handle_start_course (LESSONS : List Lesson) (st : BotState)
    (user_id : String) (now : String) (sendOk : Bool) : BotState :=
  match get_user_from_sheet st.users user_id with
  | none =>
    { st with sent := st.sent ++
        [(user_id, "Пожалуйста, начни с команды /start")] }
  | some user_data =>
    if user_data.paused then
      { st with sent := st.sent ++
          [(user_id, "Курс приостановлен. Напиши /resume, чтобы продолжить.")] }
    else
      let user_data1 := { user_data with
        paused := false, last_lesson_sent := some now }
      let st1 := { st with users := save_user_to_sheet st.users user_data1 }
      send_lesson LESSONS st1 user_id 0 sendOk

/-- The `response_text` classification of `handle_response` (content shape:
photo, then voice, then document, then plain text defaulting to ""). -/
def response_text_of (msg : Msg) : String :=
  if msg.photo then "[ФОТО]"
  else if msg.voice then "[ГОЛОСОВОЕ СООБЩЕНИЕ]"
  else if msg.document.isSome then "[ДОКУМЕНТ]"
  else msg.text.getD ""

/-- The `response_type` classification of `handle_response`. -/
def response_type_of (msg : Msg) : String :=
  if msg.photo then "photo"
  else if msg.voice then "voice"
  else if msg.document.isSome then "document"
  else "text"

/-- `handle_response`: text and photo messages are routed here.  Ignore a
missing record or an out-of-range `current_lesson`; classify the reply and
append exactly one `ResponseRecord` for the current lesson; if the current
lesson is not final, persist `current_lesson + 1` and `last_lesson_sent`,
then try to arm a one-shot job for the next lesson (ack on success, generic
error text on failure); if it is final, only send a closing ack. -/
def handle_response (LESSONS : List Lesson) (st : BotState)
    (user_id username : String) (msg : Msg) (now : String) (armOk : Bool) :
    BotState :=
  match get_user_from_sheet st.users user_id with
  | none => st
  | some user_data =>
    let current_lesson_index := user_data.current_lesson
    if LESSONS.length ≤ current_lesson_index then st
    else
      let lesson := LESSONS.getD current_lesson_index noLesson
      let record : ResponseRecord :=
        ⟨now, user_id, username, current_lesson_index, lesson.title,
         response_text_of msg, response_type_of msg⟩
      let st1 := { st with responses := save_response_to_sheet st.responses record }
      if !lesson.is_final then
        let next_lesson_index := current_lesson_index + 1
        let user_data1 := { user_data with
          current_lesson := next_lesson_index, last_lesson_sent := some now }
        let st2 := { st1 with users := save_user_to_sheet st1.users user_data1 }
        if armOk then
          { st2 with
            scheduled := st2.scheduled ++ [(user_id, next_lesson_index)],
            sent := st2.sent ++
              [(user_id, "Отлично! Следующий урок придёт через 5 секунд 🎯")] }
        else
          { st2 with sent := st2.sent ++
              [(user_id, "Произошла ошибка. Попробуй позже.")] }
      else
        { st1 with sent := st1.sent ++
            [(user_id, "Спасибо за обратную связь! Ты крут(а) 🙌")] }

/-- `handle_voice`: voice messages are routed here, not to `handle_response`.
Ignore a missing record or out-of-range index; append one `ResponseRecord`
and send an ack.  No advancement, no persistence of the user row, no
scheduling. -/
def handle_voice (LESSONS : List Lesson) (st : BotState)
    (user_id username : String) (now : String) : BotState :=
  match get_user_from_sheet st.users user_id with
  | none => st
  | some user_data =>
    let current_lesson_index := user_data.current_lesson
    if LESSONS.length ≤ current_lesson_index then st
    else
      let lesson := LESSONS.getD current_lesson_index noLesson
      let record : ResponseRecord :=
        ⟨now, user_id, username, current_lesson_index, lesson.title,
         "[ГОЛОСОВОЕ СООБЩЕНИЕ]", "voice"⟩
      let st1 := { st with responses := save_response_to_sheet st.responses record }
      { st1 with sent := st1.sent ++
          [(user_id, "🎙️ Спасибо за голосовое сообщение! Продолжаем обучение.")] }

/-- `handle_document`: document messages are routed here, not to
`handle_response`.  Same shape as `handle_voice`: append one
`ResponseRecord` and ack, with no advancement and no scheduling. -/
def handle_document (LESSONS : List Lesson) (st : BotState)
    (user_id username : String) (file_name : Option String) (now : String) :
    BotState :=
  match get_user_from_sheet st.users user_id with
  | none => st
  | some user_data =>
    let current_lesson_index := user_data.current_lesson
    if LESSONS.length ≤ current_lesson_index then st
    else
      let lesson := LESSONS.getD current_lesson_index noLesson
      let document_name := file_name.getD "Документ"
      let record : ResponseRecord :=
        ⟨now, user_id, username, current_lesson_index, lesson.title,
         "[ДОКУМЕНТ: " ++ document_name ++ "]", "document"⟩
      let st1 := { st with responses := save_response_to_sheet st.responses record }
      { st1 with sent := st1.sent ++
          [(user_id, "📄 Спасибо за документ! Продолжаем обучение.")] }

/-- `/pause`: set `paused = True` and persist on an existing record,
otherwise only send guidance. -/
def pause (st : BotState) (user_id : String) : BotState :=
  match get_user_from_sheet st.users user_id with
  | some user_data =>
    let user_data1 := { user_data with paused := true }
    let st1 := { st with users := save_user_to_sheet st.users user_data1 }
    { st1 with sent := st1.sent ++
        [(user_id, "Курс приостановлен. Напиши /resume, чтобы продолжить.")] }
  | none =>
    { st with sent := st.sent ++ [(user_id, "Сначала начни курс с /start")] }

/-- `/resume`: on an existing record set `paused = False`, persist, announce;
if `completed`, report completion and stop; otherwise re-invoke
`send_lesson` at the stored `current_lesson`. -/
def resume (LESSONS : List Lesson) (st : BotState) (user_id : String)
    (sendOk : Bool) : BotState :=
  match get_user_from_sheet st.users user_id with
  | some user_data =>
    let user_data1 := { user_data with paused := false }
    let st0 := { st with users := save_user_to_sheet st.users user_data1 }
    let st1 := { st0 with sent := st0.sent ++ [(user_id, "Курс возобновлён!")] }
    let current_lesson := user_data.current_lesson
    if user_data.completed then
      { st1 with sent := st1.sent ++ [(user_id, "Курс уже завершён! 🎉")] }
    else
      send_lesson LESSONS st1 user_id current_lesson sendOk
  | none =>
    { st with sent := st.sent ++ [(user_id, "Сначала начни курс с /start")] }

/-! Concrete data for evaluating the operations on small inputs. -/

/-- A three-lesson catalog whose last lesson carries `is_final = True`. -/
def demoLessons : List Lesson := [⟨"L1", "a", false⟩, ⟨"L2", "b", false⟩, ⟨"L3", "c", true⟩]

/-- A user at lesson 0, not paused, not completed. -/
def demoUser : UserData := ⟨"7", "alice", 0, false, none, false, "t0"⟩

/-- A state holding only `demoUser`. -/
def demoState : BotState := ⟨[demoUser], [], [], [], []⟩

/-- `demoUser` after `/pause`. -/
def pausedUser : UserData := ⟨"7", "alice", 0, true, none, false, "t0"⟩

/-- The state reached from `demoState` by the `/pause` command. -/
def pausedState : BotState := pause demoState "7"

/-- A returning user with every field populated, for overwrite checks. -/
def oldUser : UserData := ⟨"7", "bob", 2, true, some "t5", true, "t4"⟩

/-- A state holding only `oldUser`. -/
def oldState : BotState := ⟨[oldUser], [], [], [], []⟩

/-- A plain text message ("hi"). -/
def textMsg : Msg := ⟨some "hi", false, false, none⟩

/-! Helper lemmas about the sheet operations. -/

/-- A successful lookup returns a row carrying the looked-up id. -/
theorem user_id_of_get {l : List UserData} {uid : String} {u : UserData}
    (h : get_user_from_sheet l uid = some u) : u.user_id = uid := by
  unfold get_user_from_sheet at h
  have hp := List.find?_some h
  simpa using hp

/-- Looking up the id of a just-saved row returns that row. -/
theorem get_save_self (l : List UserData) (u : UserData) :
    get_user_from_sheet (save_user_to_sheet l u) u.user_id = some u := by
  induction l with
  | nil => simp [save_user_to_sheet, get_user_from_sheet]
  | cons r rs ih =>
    by_cases h : r.user_id = u.user_id
    · simp [save_user_to_sheet, get_user_from_sheet, h]
    · simp only [save_user_to_sheet, get_user_from_sheet] at ih ⊢
      rw [if_neg (by simp [h])]
      rw [List.find?_cons_of_neg _ (by simp [h])]
      exact ih

/-- Looking up a just-saved row under its id. -/
theorem get_save_eq (l : List UserData) (u : UserData) (uid : String)
    (h : u.user_id = uid) :
    get_user_from_sheet (save_user_to_sheet l u) uid = some u :=
  h ▸ get_save_self l u

/-- Saving the same row twice is the same as saving it once. -/
theorem save_save (l : List UserData) (u : UserData) :
    save_user_to_sheet (save_user_to_sheet l u) u = save_user_to_sheet l u := by
  induction l with
  | nil => simp [save_user_to_sheet]
  | cons r rs ih =>
    by_cases h : r.user_id = u.user_id
    · simp [save_user_to_sheet, h]
    · have hb : (r.user_id == u.user_id) = false := by simp [h]
      simp [save_user_to_sheet, hb, ih]

/-- Saving over an existing row does not change the number of rows. -/
theorem save_length (l : List UserData) (u : UserData)
    (h : (get_user_from_sheet l u.user_id).isSome) :
    (save_user_to_sheet l u).length = l.length := by
  induction l with
  | nil => simp [get_user_from_sheet] at h
  | cons r rs ih =>
    by_cases hr : r.user_id = u.user_id
    · simp [save_user_to_sheet, hr]
    · simp only [get_user_from_sheet] at h ih
      rw [List.find?_cons_of_neg _ (by simp [hr])] at h
      simp only [save_user_to_sheet]
      rw [if_neg (by simp [hr])]
      simp [ih h]

/-! Helper lemmas characterising `send_lesson`. -/

/-- `send_lesson` is the identity when the index is not below the catalog
length (this covers the empty catalog). -/
theorem send_lesson_out_of_range (LESSONS : List Lesson) (st : BotState)
    (uid : String) (i : Nat) (sOk : Bool) (h : LESSONS.length ≤ i) :
    send_lesson LESSONS st uid i sOk = st := by
  unfold send_lesson
  by_cases he : LESSONS.isEmpty
  · simp [he]
  · simp [he, h]

/-- `send_lesson` is the identity when no row exists for the user. -/
theorem send_lesson_absent (LESSONS : List Lesson) (st : BotState)
    (uid : String) (i : Nat) (sOk : Bool)
    (hget : get_user_from_sheet st.users uid = none) :
    send_lesson LESSONS st uid i sOk = st := by
  unfold send_lesson
  by_cases he : LESSONS.isEmpty
  · simp [he]
  · by_cases hl : LESSONS.length ≤ i
    · simp [he, hl]
    · simp [he, hl, hget]

/-- `send_lesson` is the identity when the stored row is paused. -/
theorem send_lesson_paused (LESSONS : List Lesson) (st : BotState)
    (uid : String) (i : Nat) (sOk : Bool) (ud : UserData)
    (hget : get_user_from_sheet st.users uid = some ud)
    (hp : ud.paused = true) :
    send_lesson LESSONS st uid i sOk = st := by
  unfold send_lesson
  by_cases he : LESSONS.isEmpty
  · simp [he]
  · by_cases hl : LESSONS.length ≤ i
    · simp [he, hl]
    · simp [he, hl, hget, hp]

/-- Full effect of `send_lesson` on the live path: an existing, non-paused
row and an in-range index.  The row is saved with `current_lesson = i`
before the send; on a successful send the lesson is delivered and, if final,
the row is saved again with `completed = true`. -/
theorem send_lesson_run (LESSONS : List Lesson) (st : BotState)
    (uid : String) (i : Nat) (sOk : Bool) (ud : UserData)
    (hget : get_user_from_sheet st.users uid = some ud)
    (hp : ud.paused = false) (hlt : i < LESSONS.length) :
    (send_lesson LESSONS st uid i sOk).users =
      (if sOk && (LESSONS.getD i noLesson).is_final then
        save_user_to_sheet
          (save_user_to_sheet st.users { ud with current_lesson := i })
          { ud with current_lesson := i, completed := true }
      else save_user_to_sheet st.users { ud with current_lesson := i }) ∧
    (send_lesson LESSONS st uid i sOk).delivered =
      (if sOk then st.delivered ++ [(uid, i)] else st.delivered) ∧
    (send_lesson LESSONS st uid i sOk).responses = st.responses ∧
    (send_lesson LESSONS st uid i sOk).scheduled = st.scheduled := by
  have hne : LESSONS.isEmpty = false := by
    cases LESSONS with
    | nil => simp at hlt
    | cons a as => rfl
  have hnle : ¬ LESSONS.length ≤ i := Nat.not_le.mpr hlt
  unfold send_lesson
  cases sOk with
  | false => simp [hne, hnle, hget, hp]
  | true =>
    cases hf : (LESSONS.getD i noLesson).is_final with
    | false =>
      simp only [List.getD_eq_getElem?_getD] at hf
      simp [hne, hnle, hget, hp, hf]
    | true =>
      simp only [List.getD_eq_getElem?_getD] at hf
      simp [hne, hnle, hget, hp, hf]

/-- The stored row for the user after a live `send_lesson`. -/
theorem send_lesson_get (LESSONS : List Lesson) (st : BotState)
    (uid : String) (i : Nat) (sOk : Bool) (ud : UserData)
    (hget : get_user_from_sheet st.users uid = some ud)
    (hp : ud.paused = false) (hlt : i < LESSONS.length) :
    get_user_from_sheet (send_lesson LESSONS st uid i sOk).users uid =
      some (if sOk && (LESSONS.getD i noLesson).is_final then
              { ud with current_lesson := i, completed := true }
            else { ud with current_lesson := i }) := by
  have hid : ud.user_id = uid := user_id_of_get hget
  obtain ⟨hu, -, -, -⟩ := send_lesson_run LESSONS st uid i sOk ud hget hp hlt
  rw [hu]
  by_cases hc : (sOk && (LESSONS.getD i noLesson).is_final) = true
  · rw [if_pos hc, if_pos hc]
    exact get_save_eq _ _ _ hid
  · rw [if_neg hc, if_neg hc]
    exact get_save_eq _ _ _ hid

/-! Helper lemmas characterising the message handlers. -/

/-- `handle_response` ignores a missing record. -/
theorem handle_response_absent (LESSONS : List Lesson) (st : BotState)
    (uid un : String) (msg : Msg) (now : String) (armOk : Bool)
    (hget : get_user_from_sheet st.users uid = none) :
    handle_response LESSONS st uid un msg now armOk = st := by
  unfold handle_response
  simp [hget]

/-- `handle_response` ignores an out-of-range `current_lesson`. -/
theorem handle_response_oob (LESSONS : List Lesson) (st : BotState)
    (uid un : String) (msg : Msg) (now : String) (armOk : Bool)
    (ud : UserData) (hget : get_user_from_sheet st.users uid = some ud)
    (hge : LESSONS.length ≤ ud.current_lesson) :
    handle_response LESSONS st uid un msg now armOk = st := by
  unfold handle_response
  simp [hget, hge]

/-- Effect of `handle_response` on a valid, non-final current lesson: one
response row is appended tagged with the pre-advancement index, the user row
is saved with the incremented index and fresh `last_lesson_sent`, the job is
armed exactly when arming succeeds, and nothing is delivered directly. -/
theorem handle_response_nonfinal (LESSONS : List Lesson) (st : BotState)
    (uid un : String) (msg : Msg) (now : String) (armOk : Bool)
    (ud : UserData) (hget : get_user_from_sheet st.users uid = some ud)
    (hlt : ud.current_lesson < LESSONS.length)
    (hf : (LESSONS.getD ud.current_lesson noLesson).is_final = false) :
    (handle_response LESSONS st uid un msg now armOk).responses =
      st.responses ++ [⟨now, uid, un, ud.current_lesson,
        (LESSONS.getD ud.current_lesson noLesson).title,
        response_text_of msg, response_type_of msg⟩] ∧
    (handle_response LESSONS st uid un msg now armOk).users =
      save_user_to_sheet st.users
        { ud with current_lesson := ud.current_lesson + 1,
                  last_lesson_sent := some now } ∧
    (handle_response LESSONS st uid un msg now armOk).scheduled =
      (if armOk then st.scheduled ++ [(uid, ud.current_lesson + 1)]
       else st.scheduled) ∧
    (handle_response LESSONS st uid un msg now armOk).delivered =
      st.delivered := by
  have hnle : ¬ LESSONS.length ≤ ud.current_lesson := Nat.not_le.mpr hlt
  unfold handle_response
  simp only [List.getD_eq_getElem?_getD] at hf ⊢
  cases armOk with
  | false => simp [hget, hnle, hf, save_response_to_sheet]
  | true => simp [hget, hnle, hf, save_response_to_sheet]

/-- Effect of `handle_response` on a valid, final current lesson: one
response row is appended, and the user rows, scheduler and deliveries are
untouched. -/
theorem handle_response_final (LESSONS : List Lesson) (st : BotState)
    (uid un : String) (msg : Msg) (now : String) (armOk : Bool)
    (ud : UserData) (hget : get_user_from_sheet st.users uid = some ud)
    (hlt : ud.current_lesson < LESSONS.length)
    (hf : (LESSONS.getD ud.current_lesson noLesson).is_final = true) :
    (handle_response LESSONS st uid un msg now armOk).responses =
      st.responses ++ [⟨now, uid, un, ud.current_lesson,
        (LESSONS.getD ud.current_lesson noLesson).title,
        response_text_of msg, response_type_of msg⟩] ∧
    (handle_response LESSONS st uid un msg now armOk).users = st.users ∧
    (handle_response LESSONS st uid un msg now armOk).scheduled =
      st.scheduled ∧
    (handle_response LESSONS st uid un msg now armOk).delivered =
      st.delivered := by
  have hnle : ¬ LESSONS.length ≤ ud.current_lesson := Nat.not_le.mpr hlt
  unfold handle_response
  simp only [List.getD_eq_getElem?_getD] at hf ⊢
  simp [hget, hnle, hf, save_response_to_sheet]

/-- Effect of `handle_voice` on a valid current lesson: one response row is
appended and an ack sent; user rows, scheduler and deliveries untouched. -/
theorem handle_voice_run (LESSONS : List Lesson) (st : BotState)
    (uid un : String) (now : String) (ud : UserData)
    (hget : get_user_from_sheet st.users uid = some ud)
    (hlt : ud.current_lesson < LESSONS.length) :
    handle_voice LESSONS st uid un now =
      { st with
        responses := st.responses ++ [⟨now, uid, un, ud.current_lesson,
          (LESSONS.getD ud.current_lesson noLesson).title,
          "[ГОЛОСОВОЕ СООБЩЕНИЕ]", "voice"⟩],
        sent := st.sent ++
          [(uid, "🎙️ Спасибо за голосовое сообщение! Продолжаем обучение.")] } := by
  have hnle : ¬ LESSONS.length ≤ ud.current_lesson := Nat.not_le.mpr hlt
  unfold handle_voice
  simp [hget, hnle, save_response_to_sheet]

/-- Effect of `handle_document` on a valid current lesson: one response row
is appended and an ack sent; user rows, scheduler and deliveries
untouched. -/
theorem handle_document_run (LESSONS : List Lesson) (st : BotState)
    (uid un : String) (file_name : Option String) (now : String)
    (ud : UserData) (hget : get_user_from_sheet st.users uid = some ud)
    (hlt : ud.current_lesson < LESSONS.length) :
    handle_document LESSONS st uid un file_name now =
      { st with
        responses := st.responses ++ [⟨now, uid, un, ud.current_lesson,
          (LESSONS.getD ud.current_lesson noLesson).title,
          "[ДОКУМЕНТ: " ++ file_name.getD "Документ" ++ "]", "document"⟩],
        sent := st.sent ++
          [(uid, "📄 Спасибо за документ! Продолжаем обучение.")] } := by
  have hnle : ¬ LESSONS.length ≤ ud.current_lesson := Nat.not_le.mpr hlt
  unfold handle_document
  simp [hget, hnle, save_response_to_sheet]

/-- `/start` saves exactly the fresh record over the users sheet. -/
theorem start_users (st : BotState) (uid : String) (un : Option String)
    (now : String) :
    (start st uid un now).users =
      save_user_to_sheet st.users
        ⟨uid, un.getD "unknown", 0, false, none, false, now⟩ := rfl

/-- `handle_start_course` with no record only sends guidance. -/
theorem handle_start_course_absent (LESSONS : List Lesson) (st : BotState)
    (uid : String) (now : String) (sOk : Bool)
    (hget : get_user_from_sheet st.users uid = none) :
    handle_start_course LESSONS st uid now sOk =
      { st with sent := st.sent ++
          [(uid, "Пожалуйста, начни с команды /start")] } := by
  unfold handle_start_course
  simp [hget]

/-- `handle_start_course` on a paused record only sends the paused notice. -/
theorem handle_start_course_paused (LESSONS : List Lesson) (st : BotState)
    (uid : String) (now : String) (sOk : Bool) (ud : UserData)
    (hget : get_user_from_sheet st.users uid = some ud)
    (hp : ud.paused = true) :
    handle_start_course LESSONS st uid now sOk =
      { st with sent := st.sent ++
          [(uid, "Курс приостановлен. Напиши /resume, чтобы продолжить.")] } := by
  unfold handle_start_course
  simp [hget, hp]

/-- `handle_start_course` on an existing, non-paused record delivers lesson 0
exactly when the transport send succeeds. -/
theorem handle_start_course_live_delivered (LESSONS : List Lesson)
    (st : BotState) (uid : String) (now : String) (sOk : Bool) (ud : UserData)
    (hget : get_user_from_sheet st.users uid = some ud)
    (hp : ud.paused = false) (hl : 0 < LESSONS.length) :
    (handle_start_course LESSONS st uid now sOk).delivered =
      (if sOk then st.delivered ++ [(uid, 0)] else st.delivered) := by
  have hid : ud.user_id = uid := user_id_of_get hget
  unfold handle_start_course
  simp only [hget]
  rw [if_neg (by simp [hp])]
  have hget1 : get_user_from_sheet
      (save_user_to_sheet st.users
        { ud with paused := false, last_lesson_sent := some now }) uid =
      some { ud with paused := false, last_lesson_sent := some now } :=
    get_save_eq _ _ _ hid
  obtain ⟨-, hd, -, -⟩ := send_lesson_run LESSONS
    { st with users := (save_user_to_sheet st.users
        { ud with paused := false, last_lesson_sent := some now }) }
    uid 0 sOk { ud with paused := false, last_lesson_sent := some now }
    hget1 rfl hl
  exact hd

/-- `/resume` on a completed record clears `paused`, persists, and performs
no delivery and no other change. -/
theorem resume_completed (LESSONS : List Lesson) (st : BotState)
    (uid : String) (sOk : Bool) (ud : UserData)
    (hget : get_user_from_sheet st.users uid = some ud)
    (hc : ud.completed = true) :
    (resume LESSONS st uid sOk).users =
      save_user_to_sheet st.users { ud with paused := false } ∧
    (resume LESSONS st uid sOk).delivered = st.delivered ∧
    (resume LESSONS st uid sOk).responses = st.responses ∧
    (resume LESSONS st uid sOk).scheduled = st.scheduled := by
  unfold resume
  simp [hget, hc]

/-- `/resume` on an uncompleted record whose stored index is in range clears
`paused` and re-invokes `send_lesson` at the stored index: the stored
`current_lesson` is unchanged and the current lesson is delivered exactly
when the send succeeds. -/
theorem resume_live (LESSONS : List Lesson) (st : BotState)
    (uid : String) (sOk : Bool) (ud : UserData)
    (hget : get_user_from_sheet st.users uid = some ud)
    (hc : ud.completed = false)
    (hlt : ud.current_lesson < LESSONS.length) :
    (resume LESSONS st uid sOk).delivered =
      (if sOk then st.delivered ++ [(uid, ud.current_lesson)]
       else st.delivered) ∧
    get_user_from_sheet (resume LESSONS st uid sOk).users uid =
      some (if sOk && (LESSONS.getD ud.current_lesson noLesson).is_final then
              { ud with paused := false, completed := true }
            else { ud with paused := false }) := by
  have hid : ud.user_id = uid := user_id_of_get hget
  unfold resume
  simp only [hget]
  rw [if_neg (by simp [hc])]
  have hget1 : get_user_from_sheet
      (save_user_to_sheet st.users { ud with paused := false }) uid =
      some { ud with paused := false } :=
    get_save_eq _ _ _ hid
  obtain ⟨-, hd, -, -⟩ := send_lesson_run LESSONS
    { users := (save_user_to_sheet st.users { ud with paused := false }),
      responses := st.responses,
      sent := st.sent ++ [(uid, "Курс возобновлён!")],
      delivered := st.delivered, scheduled := st.scheduled }
    uid ud.current_lesson sOk { ud with paused := false } hget1 rfl hlt
  have hg := send_lesson_get LESSONS
    { users := (save_user_to_sheet st.users { ud with paused := false }),
      responses := st.responses,
      sent := st.sent ++ [(uid, "Курс возобновлён!")],
      delivered := st.delivered, scheduled := st.scheduled }
    uid ud.current_lesson sOk { ud with paused := false } hget1 rfl hlt
  exact ⟨hd, hg⟩

/-- `/resume` on an uncompleted record whose stored index is out of range
clears `paused` and delivers nothing. -/
theorem resume_oob (LESSONS : List Lesson) (st : BotState)
    (uid : String) (sOk : Bool) (ud : UserData)
    (hget : get_user_from_sheet st.users uid = some ud)
    (hc : ud.completed = false)
    (hge : LESSONS.length ≤ ud.current_lesson) :
    (resume LESSONS st uid sOk).users =
      save_user_to_sheet st.users { ud with paused := false } ∧
    (resume LESSONS st uid sOk).delivered = st.delivered := by
  unfold resume
  simp only [hget]
  rw [if_neg (by simp [hc])]
  rw [send_lesson_out_of_range _ _ _ _ _ hge]
  exact ⟨rfl, rfl⟩

/-- `handle_response` never delivers a lesson directly: the delivery log is
untouched in every case (delivery happens only later, via the armed job). -/
theorem handle_response_delivered (LESSONS : List Lesson) (st : BotState)
    (uid un : String) (msg : Msg) (now : String) (armOk : Bool)
    (ud : UserData) (hget : get_user_from_sheet st.users uid = some ud) :
    (handle_response LESSONS st uid un msg now armOk).delivered =
      st.delivered := by
  by_cases hlt : ud.current_lesson < LESSONS.length
  · by_cases hf : (LESSONS.getD ud.current_lesson noLesson).is_final = true
    · exact (handle_response_final _ _ _ _ _ _ _ _ hget hlt hf).2.2.2
    · exact (handle_response_nonfinal _ _ _ _ _ _ _ _ hget hlt
        (Bool.eq_false_iff.mpr hf)).2.2.2
  · rw [handle_response_oob _ _ _ _ _ _ _ _ hget (Nat.le_of_not_lt hlt)]

/-- `handle_voice` never touches the users sheet or the delivery log. -/
theorem handle_voice_frame (LESSONS : List Lesson) (st : BotState)
    (uid un : String) (now : String) (ud : UserData)
    (hget : get_user_from_sheet st.users uid = some ud) :
    (handle_voice LESSONS st uid un now).users = st.users ∧
    (handle_voice LESSONS st uid un now).delivered = st.delivered := by
  by_cases hlt : ud.current_lesson < LESSONS.length
  · rw [handle_voice_run LESSONS st uid un now ud hget hlt]
    exact ⟨rfl, rfl⟩
  · unfold handle_voice
    simp [hget, Nat.le_of_not_lt hlt]

/-- `handle_document` never touches the users sheet or the delivery log. -/
theorem handle_document_frame (LESSONS : List Lesson) (st : BotState)
    (uid un : String) (file_name : Option String) (now : String)
    (ud : UserData) (hget : get_user_from_sheet st.users uid = some ud) :
    (handle_document LESSONS st uid un file_name now).users = st.users ∧
    (handle_document LESSONS st uid un file_name now).delivered =
      st.delivered := by
  by_cases hlt : ud.current_lesson < LESSONS.length
  · rw [handle_document_run LESSONS st uid un file_name now ud hget hlt]
    exact ⟨rfl, rfl⟩
  · unfold handle_document
    simp [hget, Nat.le_of_not_lt hlt]

/-! The claims. -/

/-- C9: with an empty lesson catalog, `send_lesson` is a no-op for every
index and every send outcome: the whole state (sheets, transport log,
deliveries, schedule) is returned unchanged, and the function is total. -/
theorem C9_empty_catalog_noop (st : BotState) (uid : String) (i : Nat)
    (sOk : Bool) : send_lesson [] st uid i sOk = st := rfl

/-- C7: `/start` is an idempotent reset: afterwards the stored record has
`current_lesson = 0`, `completed = false`, `paused = false` (and a fresh
`created_at`, cleared `last_lesson_sent`), and running `/start` twice leaves
the users sheet exactly as running it once. -/
theorem C7_start_idempotent_reset (st : BotState) (uid : String)
    (un : Option String) (now : String) :
    get_user_from_sheet (start st uid un now).users uid =
      some ⟨uid, un.getD "unknown", 0, false, none, false, now⟩ ∧
    (start (start st uid un now) uid un now).users =
      (start st uid un now).users := by
  constructor
  · rw [start_users]
    exact get_save_eq _ _ _ rfl
  · simp [start_users, save_save]

/-- C10: on an existing record, `/start` overwrites the whole row in place —
`created_at` becomes the current time, `last_lesson_sent` is cleared,
`username` becomes the sender's current username, progress fields are reset —
and no extra row is added, so nothing of the prior record survives. -/
theorem C10_start_overwrites_record (st : BotState) (uid : String)
    (un : Option String) (now : String) (old : UserData)
    (hget : get_user_from_sheet st.users uid = some old) :
    get_user_from_sheet (start st uid un now).users uid =
      some ⟨uid, un.getD "unknown", 0, false, none, false, now⟩ ∧
    (start st uid un now).users.length = st.users.length := by
  constructor
  · rw [start_users]
    exact get_save_eq _ _ _ rfl
  · rw [start_users]
    apply save_length
    simp [hget]

/-- C10 witness: `/start` over a returning user whose row has every field
populated replaces every field and keeps the row count. -/
theorem C10_witness :
    get_user_from_sheet (start oldState "7" (some "alice") "t9").users "7" =
      some ⟨"7", "alice", 0, false, none, false, "t9"⟩ ∧
    (start oldState "7" (some "alice") "t9").users.length =
      oldState.users.length :=
  C10_start_overwrites_record oldState "7" (some "alice") "t9" oldUser rfl

/-- C5: `handle_response` appends exactly one response row, tagged with the
`current_lesson` read before any advancement, whenever the record exists and
the index is a valid catalog index; with an out-of-range index or a missing
record the invocation is ignored outright. -/
theorem C5_handle_reply_logs_once (LESSONS : List Lesson) (st : BotState)
    (uid un : String) (msg : Msg) (now : String) (armOk : Bool) :
    (∀ ud, get_user_from_sheet st.users uid = some ud →
      ud.current_lesson < LESSONS.length →
      (handle_response LESSONS st uid un msg now armOk).responses =
        st.responses ++ [⟨now, uid, un, ud.current_lesson,
          (LESSONS.getD ud.current_lesson noLesson).title,
          response_text_of msg, response_type_of msg⟩]) ∧
    (∀ ud, get_user_from_sheet st.users uid = some ud →
      LESSONS.length ≤ ud.current_lesson →
      handle_response LESSONS st uid un msg now armOk = st) ∧
    (get_user_from_sheet st.users uid = none →
      handle_response LESSONS st uid un msg now armOk = st) := by
  refine ⟨fun ud hget hlt => ?_,
    fun ud hget hge => handle_response_oob _ _ _ _ _ _ _ _ hget hge,
    fun hget => handle_response_absent _ _ _ _ _ _ _ hget⟩
  by_cases hf : (LESSONS.getD ud.current_lesson noLesson).is_final = true
  · exact (handle_response_final _ _ _ _ _ _ _ _ hget hlt hf).1
  · exact (handle_response_nonfinal _ _ _ _ _ _ _ _ hget hlt
      (Bool.eq_false_iff.mpr hf)).1

/-- C5 witness: a text reply at lesson 0 appends exactly the one row tagged
with index 0. -/
theorem C5_witness :
    (handle_response demoLessons demoState "7" "alice" textMsg "t1"
        true).responses =
      demoState.responses ++ [⟨"t1", "7", "alice", 0, "L1", "hi", "text"⟩] :=
  (C5_handle_reply_logs_once demoLessons demoState "7" "alice" textMsg "t1"
    true).1 demoUser rfl (by decide)

/-- C4: a live `send_lesson` at a valid index `i` (existing, non-paused
record, transport send succeeding) stores `current_lesson = i`, stores
`completed = old completed OR isFinal`, and thus — starting from an
uncompleted record — ends with `completed = true` iff `catalog[i]` is
final. -/
theorem C4_deliver_lesson_index_completed (LESSONS : List Lesson)
    (st : BotState) (uid : String) (i : Nat) (ud : UserData)
    (hget : get_user_from_sheet st.users uid = some ud)
    (hp : ud.paused = false) (hlt : i < LESSONS.length) :
    (get_user_from_sheet (send_lesson LESSONS st uid i true).users uid).map
        (fun u => u.current_lesson) = some i ∧
    (get_user_from_sheet (send_lesson LESSONS st uid i true).users uid).map
        (fun u => u.completed) =
      some (ud.completed || (LESSONS.getD i noLesson).is_final) ∧
    (ud.completed = false →
      ((get_user_from_sheet (send_lesson LESSONS st uid i true).users uid).map
          (fun u => u.completed) = some true ↔
        (LESSONS.getD i noLesson).is_final = true)) := by
  have hg := send_lesson_get LESSONS st uid i true ud hget hp hlt
  rw [hg]
  by_cases hf : (LESSONS.getD i noLesson).is_final = true
  · simp only [List.getD_eq_getElem?_getD] at hf
    simp [hf]
  · have hf2 : (LESSONS.getD i noLesson).is_final = false :=
      Bool.eq_false_iff.mpr hf
    simp only [List.getD_eq_getElem?_getD] at hf2
    simp [hf2]

/-- C4 witness: delivering the final lesson (index 2) to `demoUser` stores
index 2 and sets `completed`. -/
theorem C4_witness :
    (get_user_from_sheet (send_lesson demoLessons demoState "7" 2
        true).users "7").map (fun u => u.current_lesson) = some 2 ∧
    (get_user_from_sheet (send_lesson demoLessons demoState "7" 2
        true).users "7").map (fun u => u.completed) =
      some (demoUser.completed || (demoLessons.getD 2 noLesson).is_final) ∧
    (demoUser.completed = false →
      ((get_user_from_sheet (send_lesson demoLessons demoState "7" 2
          true).users "7").map (fun u => u.completed) = some true ↔
        (demoLessons.getD 2 noLesson).is_final = true)) :=
  C4_deliver_lesson_index_completed demoLessons demoState "7" 2 demoUser
    rfl rfl (by decide)

/-- C3 counterexample: `demoUser` is stored at lesson 0; `send_lesson` for
lesson 1 with a failing transport delivers nothing and sets no completion,
yet the stored `current_lesson` is left at 1 — the undelivered lesson's
index — contradicting the claim that the stored progress is not advanced
past a failed send. -/
theorem C3_counterexample :
    (send_lesson demoLessons demoState "7" 1 false).delivered = [] ∧
    (get_user_from_sheet (send_lesson demoLessons demoState "7" 1
        false).users "7").map (fun u => u.current_lesson) = some 1 ∧
    (get_user_from_sheet demoState.users "7").map
        (fun u => u.current_lesson) = some 0 := by decide

/-- C3 (amended): when the transport send fails inside `send_lesson`, the
step is aborted without setting `completed = true` and nothing is delivered,
but `current_lesson = index` has already been persisted before the send, so
the stored index is left at the undelivered lesson's index. -/
theorem C3_send_failure_amended (LESSONS : List Lesson) (st : BotState)
    (uid : String) (i : Nat) (ud : UserData)
    (hget : get_user_from_sheet st.users uid = some ud)
    (hp : ud.paused = false) (hlt : i < LESSONS.length) :
    get_user_from_sheet (send_lesson LESSONS st uid i false).users uid =
      some { ud with current_lesson := i } ∧
    (send_lesson LESSONS st uid i false).delivered = st.delivered ∧
    (send_lesson LESSONS st uid i false).sent = st.sent := by
  have hg := send_lesson_get LESSONS st uid i false ud hget hp hlt
  have hne : LESSONS.isEmpty = false := by
    cases LESSONS with
    | nil => simp at hlt
    | cons a as => rfl
  have hnle : ¬ LESSONS.length ≤ i := Nat.not_le.mpr hlt
  refine ⟨by simpa using hg, ?_, ?_⟩
  · obtain ⟨-, hd, -, -⟩ := send_lesson_run LESSONS st uid i false ud hget hp hlt
    simpa using hd
  · unfold send_lesson
    simp [hne, hnle, hget, hp]

/-- C3 witness for the amended claim, at the counterexample's input. -/
theorem C3_witness :
    get_user_from_sheet (send_lesson demoLessons demoState "7" 1
        false).users "7" = some { demoUser with current_lesson := 1 } ∧
    (send_lesson demoLessons demoState "7" 1 false).delivered =
      demoState.delivered ∧
    (send_lesson demoLessons demoState "7" 1 false).sent = demoState.sent :=
  C3_send_failure_amended demoLessons demoState "7" 1 demoUser rfl rfl
    (by decide)

/-- C1 counterexample: `demoUser` has an existing record at the valid,
non-final lesson 0; a voice reply is handled by `handle_voice`, which
appends the response row but leaves the stored `current_lesson` at 0 (the
claim requires 1), arms no scheduler job, and persists no
`last_lesson_sent` — so the claim fails for voice (and document) replies. -/
theorem C1_counterexample :
    (handle_voice demoLessons demoState "7" "alice" "t1").responses.length
      = 1 ∧
    (get_user_from_sheet (handle_voice demoLessons demoState "7" "alice"
        "t1").users "7").map (fun u => u.current_lesson) = some 0 ∧
    (handle_voice demoLessons demoState "7" "alice" "t1").scheduled = [] ∧
    (get_user_from_sheet (handle_voice demoLessons demoState "7" "alice"
        "t1").users "7").map (fun u => u.last_lesson_sent) =
      some none := by decide

/-- C1 (amended): for an existing record at a valid, non-final catalog
index, a text or photo reply (routed to `handle_response`, with the job
queue arming successfully) appends one response row, persists
`current_lesson + 1` and a fresh `last_lesson_sent`, and arms the scheduler
for the next lesson; a voice or document reply (routed to `handle_voice` /
`handle_document`) appends one response row for the current lesson but
leaves the users sheet and the scheduler untouched. -/
theorem C1_handle_reply_amended (LESSONS : List Lesson) (st : BotState)
    (uid un : String) (msg : Msg) (file_name : Option String) (now : String)
    (ud : UserData) (hget : get_user_from_sheet st.users uid = some ud)
    (hlt : ud.current_lesson < LESSONS.length)
    (hf : (LESSONS.getD ud.current_lesson noLesson).is_final = false) :
    (handle_response LESSONS st uid un msg now true).responses =
      st.responses ++ [⟨now, uid, un, ud.current_lesson,
        (LESSONS.getD ud.current_lesson noLesson).title,
        response_text_of msg, response_type_of msg⟩] ∧
    get_user_from_sheet
        (handle_response LESSONS st uid un msg now true).users uid =
      some { ud with current_lesson := ud.current_lesson + 1,
                     last_lesson_sent := some now } ∧
    (handle_response LESSONS st uid un msg now true).scheduled =
      st.scheduled ++ [(uid, ud.current_lesson + 1)] ∧
    (handle_voice LESSONS st uid un now).responses =
      st.responses ++ [⟨now, uid, un, ud.current_lesson,
        (LESSONS.getD ud.current_lesson noLesson).title,
        "[ГОЛОСОВОЕ СООБЩЕНИЕ]", "voice"⟩] ∧
    (handle_voice LESSONS st uid un now).users = st.users ∧
    (handle_voice LESSONS st uid un now).scheduled = st.scheduled ∧
    (handle_document LESSONS st uid un file_name now).responses =
      st.responses ++ [⟨now, uid, un, ud.current_lesson,
        (LESSONS.getD ud.current_lesson noLesson).title,
        "[ДОКУМЕНТ: " ++ file_name.getD "Документ" ++ "]", "document"⟩] ∧
    (handle_document LESSONS st uid un file_name now).users = st.users ∧
    (handle_document LESSONS st uid un file_name now).scheduled =
      st.scheduled := by
  have hid : ud.user_id = uid := user_id_of_get hget
  obtain ⟨hr, hu, hs, -⟩ :=
    handle_response_nonfinal LESSONS st uid un msg now true ud hget hlt hf
  have hv := handle_voice_run LESSONS st uid un now ud hget hlt
  have hd := handle_document_run LESSONS st uid un file_name now ud hget hlt
  refine ⟨hr, ?_, by simpa using hs, by rw [hv], by rw [hv], by rw [hv],
    by rw [hd], by rw [hd], by rw [hd]⟩
  rw [hu]
  exact get_save_eq _ _ _ hid

/-- C1 witness for the amended claim: all three handler kinds at lesson 0 of
the demo catalog. -/
theorem C1_witness :
    (handle_response demoLessons demoState "7" "alice" textMsg "t1"
        true).responses =
      demoState.responses ++ [⟨"t1", "7", "alice", 0, "L1", "hi", "text"⟩] ∧
    get_user_from_sheet (handle_response demoLessons demoState "7" "alice"
        textMsg "t1" true).users "7" =
      some ⟨"7", "alice", 1, false, some "t1", false, "t0"⟩ ∧
    (handle_response demoLessons demoState "7" "alice" textMsg "t1"
        true).scheduled = demoState.scheduled ++ [("7", 1)] ∧
    (handle_voice demoLessons demoState "7" "alice" "t1").responses =
      demoState.responses ++
        [⟨"t1", "7", "alice", 0, "L1", "[ГОЛОСОВОЕ СООБЩЕНИЕ]", "voice"⟩] ∧
    (handle_voice demoLessons demoState "7" "alice" "t1").users =
      demoState.users ∧
    (handle_voice demoLessons demoState "7" "alice" "t1").scheduled =
      demoState.scheduled ∧
    (handle_document demoLessons demoState "7" "alice" (some "f.pdf")
        "t1").responses =
      demoState.responses ++
        [⟨"t1", "7", "alice", 0, "L1", "[ДОКУМЕНТ: f.pdf]", "document"⟩] ∧
    (handle_document demoLessons demoState "7" "alice" (some "f.pdf")
        "t1").users = demoState.users ∧
    (handle_document demoLessons demoState "7" "alice" (some "f.pdf")
        "t1").scheduled = demoState.scheduled :=
  C1_handle_reply_amended demoLessons demoState "7" "alice" textMsg
    (some "f.pdf") "t1" demoUser rfl (by decide) (by decide)

/-- C2 counterexample: after `/pause` the stored record is paused at lesson
0, yet a plain text reply (not `/resume`) bumps the stored `current_lesson`
to 1 — contradicting the claim that every inbound message other than
`/resume` leaves `currentLessonIndex` unchanged while paused. -/
theorem C2_counterexample :
    (get_user_from_sheet pausedState.users "7").map (fun u => u.paused) =
      some true ∧
    (get_user_from_sheet pausedState.users "7").map
        (fun u => u.current_lesson) = some 0 ∧
    (get_user_from_sheet (handle_response demoLessons pausedState "7"
        "alice" textMsg "t1" true).users "7").map
        (fun u => u.current_lesson) = some 1 := by decide

/-- C2 (amended): while a record is paused, no lesson is ever delivered —
`send_lesson` (and hence the scheduled job) is a no-op, the course-begin
button only surfaces a notice, and the reply handlers deliver nothing — and
voice/document replies leave the users sheet unchanged; however, a text or
photo reply to a valid, non-final lesson still advances the stored
`current_lesson` by one (`handle_response` has no paused check). -/
theorem C2_pause_suppression_amended (LESSONS : List Lesson) (st : BotState)
    (uid un : String) (msg : Msg) (file_name : Option String) (now : String)
    (armOk sOk : Bool) (i : Nat) (ud : UserData)
    (hget : get_user_from_sheet st.users uid = some ud)
    (hp : ud.paused = true) :
    send_lesson LESSONS st uid i sOk = st ∧
    send_lesson_job LESSONS st uid i sOk = st ∧
    (handle_start_course LESSONS st uid now sOk).users = st.users ∧
    (handle_start_course LESSONS st uid now sOk).delivered = st.delivered ∧
    (handle_response LESSONS st uid un msg now armOk).delivered =
      st.delivered ∧
    (handle_voice LESSONS st uid un now).users = st.users ∧
    (handle_voice LESSONS st uid un now).delivered = st.delivered ∧
    (handle_document LESSONS st uid un file_name now).users = st.users ∧
    (handle_document LESSONS st uid un file_name now).delivered =
      st.delivered ∧
    (ud.current_lesson < LESSONS.length →
      (LESSONS.getD ud.current_lesson noLesson).is_final = false →
      (get_user_from_sheet (handle_response LESSONS st uid un msg now
          armOk).users uid).map (fun u => u.current_lesson) =
        some (ud.current_lesson + 1)) := by
  have hid : ud.user_id = uid := user_id_of_get hget
  have hsl := send_lesson_paused LESSONS st uid i sOk ud hget hp
  have hsc := handle_start_course_paused LESSONS st uid now sOk ud hget hp
  have hvf := handle_voice_frame LESSONS st uid un now ud hget
  have hdf := handle_document_frame LESSONS st uid un file_name now ud hget
  refine ⟨hsl, hsl, by rw [hsc], by rw [hsc],
    handle_response_delivered LESSONS st uid un msg now armOk ud hget,
    hvf.1, hvf.2, hdf.1, hdf.2, fun hlt hf => ?_⟩
  obtain ⟨-, hu, -, -⟩ :=
    handle_response_nonfinal LESSONS st uid un msg now armOk ud hget hlt hf
  have hg1 : get_user_from_sheet (save_user_to_sheet st.users
      { ud with current_lesson := ud.current_lesson + 1,
                last_lesson_sent := some now }) uid =
      some { ud with current_lesson := ud.current_lesson + 1,
                     last_lesson_sent := some now } :=
    get_save_eq _ _ _ hid
  rw [hu, hg1]
  rfl

/-- C2 witness for the amended claim: at the paused demo state, nothing is
delivered by any handler, but the stored index still advances on a text
reply. -/
theorem C2_witness :
    send_lesson demoLessons pausedState "7" 0 true = pausedState ∧
    send_lesson_job demoLessons pausedState "7" 0 true = pausedState ∧
    (handle_start_course demoLessons pausedState "7" "t1" true).users =
      pausedState.users ∧
    (handle_start_course demoLessons pausedState "7" "t1" true).delivered =
      pausedState.delivered ∧
    (handle_response demoLessons pausedState "7" "alice" textMsg "t1"
        true).delivered = pausedState.delivered ∧
    (handle_voice demoLessons pausedState "7" "alice" "t1").users =
      pausedState.users ∧
    (handle_voice demoLessons pausedState "7" "alice" "t1").delivered =
      pausedState.delivered ∧
    (handle_document demoLessons pausedState "7" "alice" (some "f.pdf")
        "t1").users = pausedState.users ∧
    (handle_document demoLessons pausedState "7" "alice" (some "f.pdf")
        "t1").delivered = pausedState.delivered ∧
    (get_user_from_sheet (handle_response demoLessons pausedState "7"
        "alice" textMsg "t1" true).users "7").map
        (fun u => u.current_lesson) = some 1 := by
  obtain ⟨h1, h2, h3, h4, h5, h6, h7, h8, h9, h10⟩ :=
    C2_pause_suppression_amended demoLessons pausedState "7" "alice" textMsg
      (some "f.pdf") "t1" true true 0 pausedUser (by decide) rfl
  exact ⟨h1, h2, h3, h4, h5, h6, h7, h8, h9, h10 (by decide) (by decide)⟩

/-- C6: `/resume` on an existing record clears `paused` and persists; on a
completed record it delivers nothing and leaves the stored index alone;
otherwise (stored index in range, transport send succeeding) it re-delivers
exactly the lesson at the stored `current_lesson`, which stays unchanged —
no lesson is skipped. -/
theorem C6_resume_redelivers (LESSONS : List Lesson) (st : BotState)
    (uid : String) (sOk : Bool) (ud : UserData)
    (hget : get_user_from_sheet st.users uid = some ud) :
    (get_user_from_sheet (resume LESSONS st uid sOk).users uid).map
        (fun u => u.paused) = some false ∧
    (ud.completed = true →
      (resume LESSONS st uid sOk).delivered = st.delivered ∧
      (get_user_from_sheet (resume LESSONS st uid sOk).users uid).map
          (fun u => u.current_lesson) = some ud.current_lesson) ∧
    (ud.completed = false → ud.current_lesson < LESSONS.length →
      sOk = true →
      (resume LESSONS st uid sOk).delivered =
        st.delivered ++ [(uid, ud.current_lesson)] ∧
      (get_user_from_sheet (resume LESSONS st uid sOk).users uid).map
          (fun u => u.current_lesson) = some ud.current_lesson) := by
  have hid : ud.user_id = uid := user_id_of_get hget
  have hg1 : get_user_from_sheet (save_user_to_sheet st.users
      { ud with paused := false }) uid = some { ud with paused := false } :=
    get_save_eq _ _ _ hid
  refine ⟨?_, fun hc => ?_, fun hc hlt hsk => ?_⟩
  · cases hcb : ud.completed with
    | true =>
      obtain ⟨hu, -, -, -⟩ := resume_completed LESSONS st uid sOk ud hget hcb
      rw [hu, hg1]
      rfl
    | false =>
      by_cases hlt : ud.current_lesson < LESSONS.length
      · obtain ⟨-, hg⟩ := resume_live LESSONS st uid sOk ud hget hcb hlt
        rw [hg]
        by_cases hf :
            (sOk && (LESSONS.getD ud.current_lesson noLesson).is_final) = true
        · rw [if_pos hf]
          rfl
        · rw [if_neg hf]
          rfl
      · obtain ⟨hu, -⟩ :=
          resume_oob LESSONS st uid sOk ud hget hcb (Nat.le_of_not_lt hlt)
        rw [hu, hg1]
        rfl
  · obtain ⟨hu, hd, -, -⟩ := resume_completed LESSONS st uid sOk ud hget hc
    refine ⟨hd, ?_⟩
    rw [hu, hg1]
    rfl
  · subst hsk
    obtain ⟨hd, hg⟩ := resume_live LESSONS st uid true ud hget hc hlt
    refine ⟨by simpa using hd, ?_⟩
    rw [hg]
    by_cases hf :
        (true && (LESSONS.getD ud.current_lesson noLesson).is_final) = true
    · rw [if_pos hf]
      rfl
    · rw [if_neg hf]
      rfl

/-- C6 witness: resuming the (uncompleted, unpaused-again) demo user
re-delivers lesson 0 and keeps the stored index at 0. -/
theorem C6_witness :
    (get_user_from_sheet (resume demoLessons demoState "7" true).users
        "7").map (fun u => u.paused) = some false ∧
    (resume demoLessons demoState "7" true).delivered =
      demoState.delivered ++ [("7", 0)] ∧
    (get_user_from_sheet (resume demoLessons demoState "7" true).users
        "7").map (fun u => u.current_lesson) = some 0 := by
  obtain ⟨h1, -, h3⟩ :=
    C6_resume_redelivers demoLessons demoState "7" true demoUser rfl
  obtain ⟨hd, hcl⟩ := h3 rfl (by decide) rfl
  exact ⟨h1, hd, hcl⟩

/-- C8: the "Начать курс" button: with no record, nothing is delivered and
no state changes; with a paused record, only the paused notice is sent and
no user state changes; with an existing non-paused record (non-empty
catalog, send succeeding) the lesson at index 0 is delivered. -/
theorem C8_begin_course (LESSONS : List Lesson) (st : BotState)
    (uid : String) (now : String) (sOk : Bool) :
    (get_user_from_sheet st.users uid = none →
      (handle_start_course LESSONS st uid now sOk).users = st.users ∧
      (handle_start_course LESSONS st uid now sOk).responses =
        st.responses ∧
      (handle_start_course LESSONS st uid now sOk).scheduled =
        st.scheduled ∧
      (handle_start_course LESSONS st uid now sOk).delivered =
        st.delivered) ∧
    (∀ ud, get_user_from_sheet st.users uid = some ud → ud.paused = true →
      (handle_start_course LESSONS st uid now sOk).users = st.users ∧
      (handle_start_course LESSONS st uid now sOk).responses =
        st.responses ∧
      (handle_start_course LESSONS st uid now sOk).scheduled =
        st.scheduled ∧
      (handle_start_course LESSONS st uid now sOk).delivered =
        st.delivered) ∧
    (∀ ud, get_user_from_sheet st.users uid = some ud → ud.paused = false →
      0 < LESSONS.length → sOk = true →
      (handle_start_course LESSONS st uid now sOk).delivered =
        st.delivered ++ [(uid, 0)]) := by
  refine ⟨fun hget => ?_, fun ud hget hp => ?_, fun ud hget hp hl hsk => ?_⟩
  · rw [handle_start_course_absent LESSONS st uid now sOk hget]
    exact ⟨rfl, rfl, rfl, rfl⟩
  · rw [handle_start_course_paused LESSONS st uid now sOk ud hget hp]
    exact ⟨rfl, rfl, rfl, rfl⟩
  · subst hsk
    have hd :=
      handle_start_course_live_delivered LESSONS st uid now true ud hget hp hl
    simpa using hd

/-- C8 witness: pressing the button as the non-paused demo user delivers
lesson 0. -/
theorem C8_witness :
    (handle_start_course demoLessons demoState "7" "t1" true).delivered =
      demoState.delivered ++ [("7", 0)] :=
  (C8_begin_course demoLessons demoState "7" "t1" true).2.2 demoUser rfl rfl
    (by decide) rfl

end Bot
